import Mathlib

/-!
Shallow embedding of `opendbc/car/hyundai/hyundaicanfd.py`: the CAN-FD frame
composers for Hyundai vehicles (bus topology resolver, accel shaper,
camera-message suppressor, cruise/cancel composer, cluster overlay, and the
ADAS keep-alive cadence multiplexer), together with theorems checking the
natural-language specification against them.

Signal values are modelled as rationals (`ℚ`); a named-signal value mapping
(a Python dict) is a partial map `String → Option ℚ` built by insertion, so
that later insertions override earlier ones exactly as dict assignment does.
-/

set_option maxRecDepth 100000

namespace HyundaiCanFD

/-- A named-signal value mapping (a Python `dict` of signal name to value). -/
def Dict : Type := String → Option ℚ

/-- The empty mapping (`{}`). -/
def Dict.empty : Dict := fun _ => none

/-- Assignment `d[k] = v` on a mapping: later insertions shadow earlier ones. -/
def Dict.insert (d : Dict) (k : String) (v : ℚ) : Dict :=
  fun x => if x = k then some v else d x

/-- Lookup `d.get(k)` on a mapping: `none` when the key is absent. -/
def Dict.get (d : Dict) (k : String) : Option ℚ := d k

theorem Dict.get_empty (x : String) : Dict.empty.get x = none := rfl

theorem Dict.get_insert (d : Dict) (k : String) (v : ℚ) (x : String) :
    (d.insert k v).get x = if x = k then some v else d.get x := rfl

theorem Dict.get_ite (c : Prop) [Decidable c] (d₁ d₂ : Dict) (x : String) :
    (if c then d₁ else d₂).get x = if c then d₁.get x else d₂.get x := by
  split <;> rfl

/-- A frame descriptor: the triple handed to the external packer by
`packer.make_can_msg(name, bus, values)`. -/
structure CanMsg where
  name : String
  bus : Nat
  values : Dict

/-- Bus topology resolver, from `class CanBus(CanBusBase)`.  The base class
supplies `self.offset` (the multi-bus offset) and the `lka_steering`
flag is resolved from the platform flags; both are parameters here. -/
structure CanBus where
  ACAN : Nat
  ECAN : Nat
  CAM : Nat

/-- Constructor `CanBus.__init__`: `self._a, self._e = 1, 0`, swapped to `0, 1` when
`lka_steering`; then both shifted by `offset`, and `self._cam = 2 + offset`. -/
def CanBus.init (lka_steering : Bool) (offset : Nat) : CanBus :=
  let ae : Nat × Nat := if lka_steering then (0, 1) else (1, 0)
  { ACAN := ae.1 + offset, ECAN := ae.2 + offset, CAM := 2 + offset }

/-- Composer `create_buttons`: one CRUISE_BUTTONS frame, on ECAN for LKA-steering
harnesses and on the CAM (relay) bus otherwise. -/
def create_buttons (CP_lka_steering : Bool) (CAN : CanBus) (cnt btn : ℚ) : CanMsg :=
  let values := ((Dict.empty.insert "COUNTER" cnt).insert "SET_ME_1" 1).insert
    "CRUISE_BUTTONS" btn
  let bus := if CP_lka_steering then CAN.ECAN else CAN.CAM
  { name := "CRUISE_BUTTONS", bus := bus, values := values }

/-- Field subset copied from the cruise-status frame by `create_acc_cancel`
when `HyundaiFlags.CANFD_CAMERA_SCC` is set. -/
def camera_scc_cancel_fields : List String :=
  ["COUNTER", "CHECKSUM", "NEW_SIGNAL_1", "MainMode_ACC", "ACCMode", "ZEROS_9",
   "CRUISE_STANDSTILL", "ZEROS_5", "DISTANCE_SETTING", "VSetDis"]

/-- Field subset copied from the cruise-status frame by `create_acc_cancel`
in the standalone-radar (non-camera-SCC) variant. -/
def radar_scc_cancel_fields : List String :=
  ["COUNTER", "CHECKSUM", "ACCMode", "VSetDis", "CRUISE_STANDSTILL"]

/-- Composer `create_acc_cancel`: copy a fixed field subset from the cruise-status
snapshot (the subset depending on `CANFD_CAMERA_SCC`), then override
`ACCMode` to 4 and zero both acceleration fields; emitted on ECAN. -/
def create_acc_cancel (CP_camera_scc : Bool) (CAN : CanBus)
    (cruise_info_copy : String → ℚ) : CanMsg :=
  let fields := if CP_camera_scc then camera_scc_cancel_fields else radar_scc_cancel_fields
  let values := fields.foldl (fun d s => d.insert s (cruise_info_copy s)) Dict.empty
  let values := ((values.insert "ACCMode" 4).insert "aReqRaw" 0).insert "aReqValue" 0
  { name := "SCC_CONTROL", bus := CAN.ECAN, values := values }

/-- Clip function `np.clip(a, lo, hi)` = `min(hi, max(a, lo))`. -/
def np_clip (a lo hi : ℚ) : ℚ := min (max a lo) hi

/-- HUD directives used by the longitudinal composers (`hud_control`). -/
structure HUDControl where
  leftLaneVisible : Bool
  rightLaneVisible : Bool
  leftLaneDepart : Bool
  rightLaneDepart : Bool
  leadVisible : Bool
  leadDistanceBars : ℚ

/-- Composer `create_acc_control`: the accel-command composer.  `jerk = 5`,
`jn = jerk / 50`; raw/shaped accel forced to zero when not enabled or on
gas override, otherwise shaped = request clipped to
`[accel_last - jn, accel_last + jn]`.  One SCC_CONTROL frame on ECAN. -/
def create_acc_control (CAN : CanBus) (enabled : Bool) (accel_last accel : ℚ)
    (stopping gas_override : Bool) (set_speed : ℚ) (hud_control : HUDControl)
    (cruise_info : Option (String → ℚ)) : CanMsg :=
  let jerk : ℚ := 5
  let jn := jerk / 50
  let araw_aval : ℚ × ℚ :=
    if !enabled || gas_override then (0, 0)
    else (accel, np_clip accel (accel_last - jn) (accel_last + jn))
  let values := Dict.empty
  let values := values.insert "ACCMode" (if !enabled then 0 else if gas_override then 2 else 1)
  let values := values.insert "MainMode_ACC" 1
  let values := values.insert "StopReq" (if stopping then 1 else 0)
  let values := values.insert "aReqValue" araw_aval.2
  let values := values.insert "aReqRaw" araw_aval.1
  let values := values.insert "VSetDis" set_speed
  let values := values.insert "JerkLowerLimit" (if enabled then jerk else 1)
  let values := values.insert "JerkUpperLimit" 3
  let values := values.insert "ObjValid" 0
  let values := values.insert "OBJ_STATUS" 2
  let values := values.insert "SET_ME_2" 0x4
  let values := values.insert "SET_ME_3" 0x3
  let values := values.insert "SET_ME_TMP_64" 0x64
  let values := values.insert "DISTANCE_SETTING" hud_control.leadDistanceBars
  let values := match cruise_info with
    | none => values.insert "ACC_ObjDist" 1
    | some ci => (values.insert "ACC_ObjDist" (ci "ACC_ObjDist")).insert
        "ACC_ObjRelSpd" (ci "ACC_ObjRelSpd")
  { name := "SCC_CONTROL", bus := CAN.ECAN, values := values }

/-- Key format `f"BYTE{i}"`. -/
def byteKey (i : Nat) : String := "BYTE" ++ toString i

/-- Composer `create_suppress_lfa`: copy `BYTE{i}` for `i` in `range(3, msg_bytes)`
except `i = 7` and the counter from the received camera frame, zero the two
reserved-constant fields and the left/right lane-line fields; emitted on
ACAN under the variant-selected message identity. -/
def create_suppress_lfa (CAN : CanBus) (lfa_block_msg : String → ℚ)
    (lka_steering_alt : Bool) : CanMsg :=
  let suppress_msg := if lka_steering_alt then "CAM_0x362" else "CAM_0x2a4"
  let msg_bytes := if lka_steering_alt then 32 else 24
  let values := ((List.range' 3 (msg_bytes - 3)).filter (fun i => i ≠ 7)).foldl
    (fun d i => d.insert (byteKey i) (lfa_block_msg (byteKey i))) Dict.empty
  let values := values.insert "COUNTER" (lfa_block_msg "COUNTER")
  let values := values.insert "SET_ME_0" 0
  let values := values.insert "SET_ME_0_2" 0
  let values := values.insert "LEFT_LANE_LINE" 0
  let values := values.insert "RIGHT_LANE_LINE" 0
  { name := suppress_msg, bus := CAN.ACAN, values := values }

/-- Composer `create_fca_warning_light`: the ADRV_0x160 fault-light frame on ECAN,
emitted only when `frame % 2 == 0`. -/
def create_fca_warning_light (CAN : CanBus) (frame : Nat) : List CanMsg :=
  if frame % 2 = 0 then
    let values := Dict.empty
    let values := values.insert "AEB_SETTING" 0x1
    let values := values.insert "SET_ME_2" 0x2
    let values := values.insert "SET_ME_FF" 0xff
    let values := values.insert "SET_ME_FC" 0xfc
    let values := values.insert "SET_ME_9" 0x9
    [{ name := "ADRV_0x160", bus := CAN.ECAN, values := values }]
  else []

/-- Composer `create_adrv_messages`: the cadence multiplexer.  Always one ADRV_0x51
keep-alive on ACAN; the fault light via `create_fca_warning_light`; further
static ECAN frames at the 5-, 20- and 100-cycle cadences. -/
def create_adrv_messages (CAN : CanBus) (frame : Nat) : List CanMsg :=
  [{ name := "ADRV_0x51", bus := CAN.ACAN, values := Dict.empty }]
  ++ create_fca_warning_light CAN frame
  ++ (if frame % 5 = 0 then
      [{ name := "ADRV_0x1ea", bus := CAN.ECAN, values :=
          (((Dict.empty.insert "SET_ME_1C" 0x1c).insert "SET_ME_FF" 0xff).insert
            "SET_ME_TMP_F" 0xf).insert "SET_ME_TMP_F_2" 0xf },
       { name := "ADRV_0x200", bus := CAN.ECAN, values :=
          (Dict.empty.insert "SET_ME_E1" 0xe1).insert "SET_ME_3A" 0x3a }]
    else [])
  ++ (if frame % 20 = 0 then
      [{ name := "ADRV_0x345", bus := CAN.ECAN, values :=
          Dict.empty.insert "SET_ME_15" 0x15 }]
    else [])
  ++ (if frame % 100 = 0 then
      [{ name := "ADRV_0x1da", bus := CAN.ECAN, values :=
          (Dict.empty.insert "SET_ME_22" 0x22).insert "SET_ME_41" 0x41 }]
    else [])

/-- Constant `Conversions.MPH_TO_KPH = 1.609344` (external conversion table). -/
def MPH_TO_KPH : ℚ := 1.609344

/-- Constant `Conversions.KPH_TO_MPH = 1. / MPH_TO_KPH`. -/
def KPH_TO_MPH : ℚ := 1 / MPH_TO_KPH

/-- Python 3 `round` to the nearest integer, ties to even. -/
def pyRound (q : ℚ) : ℤ :=
  let f := ⌊q⌋
  let r := q - (f : ℚ)
  if r < 1 / 2 then f
  else if 1 / 2 < r then f + 1
  else if f % 2 = 0 then f else f + 1

/-- Scalar vehicle-state readings (`CS.out`). -/
structure CarStateOut where
  vEgo : ℚ
  leftBlindspot : Bool
  rightBlindspot : Bool
  vCruiseCluster : ℚ

/-- Vehicle-state snapshot slice used by `create_ccnc`. -/
structure CarState where
  out : CarStateOut
  is_metric : Bool
  msg_161 : Dict
  msg_162 : Dict

/-- Control-command slice used by `create_ccnc` (`CC`). -/
structure CarControl where
  enabled : Bool
  leftBlinker : Bool
  rightBlinker : Bool
  hudControl : HUDControl

/-- Platform-parameter slice used by `create_ccnc` (`CP`). -/
structure CarParams where
  openpilotLongitudinalControl : Bool

/-- Composer `create_ccnc`: the cluster/HUD overlay.  Overlays fault, alert, icon,
lane-line, blinker and (when this stack owns longitudinal control)
speed/distance fields onto copies of the relayed cluster frames
`msg_161`/`msg_162`, and emits both on ECAN, page A then page B. -/
def create_ccnc (CAN : CanBus) (CP : CarParams) (CC : CarControl) (CS : CarState)
    (lat_active : Bool) : List CanMsg :=
  let msg_161 := CS.msg_161
  let msg_162 := CS.msg_162
  let enabled := CC.enabled
  let hud := CC.hudControl
  let msg_162 := ((((msg_162.insert "FAULT_LSS" 0).insert "FAULT_HDA" 0).insert
    "FAULT_DAS" 0).insert "FAULT_LFA" 0).insert "FAULT_DAW" 0
  let msg_161 := if msg_161.get "ALERTS_3" = some 17 then  -- DRIVE_CAREFULLY
    msg_161.insert "ALERTS_3" 0 else msg_161
  let msg_161 := if msg_161.get "ALERTS_5" = some 2 then  -- WATCH_FOR_SURROUNDING_VEHICLES
    msg_161.insert "ALERTS_5" 0 else msg_161
  let msg_161 := if msg_161.get "ALERTS_5" = some 4 then  -- SMART_CRUISE_CONTROL_CONDITIONS_NOT_MET
    msg_161.insert "ALERTS_5" 0 else msg_161
  let msg_161 := if msg_161.get "ALERTS_5" = some 5 then  -- USE_SWITCH_OR_PEDAL_TO_ACCELERATE
    msg_161.insert "ALERTS_5" 0 else msg_161
  let msg_161 := if msg_161.get "ALERTS_2" = some 5 then  -- CONSIDER_TAKING_A_BREAK
    (msg_161.insert "ALERTS_2" 0).insert "SOUNDS_2" 0 else msg_161
  let msg_161 := if msg_161.get "SOUNDS_4" = some 2 ∧
      (msg_161.get "LFA_ICON" = some 3 ∨ msg_161.get "LFA_ICON" = some 0) then  -- LFA BEEPS
    msg_161.insert "SOUNDS_4" 0 else msg_161
  let msg_161 := msg_161.insert "DAW_ICON" 0
  let msg_161 := msg_161.insert "LKA_ICON" 0
  let msg_161 := msg_161.insert "LFA_ICON" (if lat_active || enabled then 2 else 1)
  let msg_161 := msg_161.insert "CENTERLINE" (if lat_active || enabled then 1 else 0)
  let msg_161 := msg_161.insert "LANELINE_LEFT"
    (if !hud.leftLaneVisible then 1
     else if hud.leftLaneDepart then 4
     else if !(lat_active || enabled) then 0
     else if CS.out.leftBlindspot ∨ CS.out.vEgo < 8.94 then 2 else 6)
  let msg_161 := msg_161.insert "LANELINE_RIGHT"
    (if !hud.rightLaneVisible then 1
     else if hud.rightLaneDepart then 4
     else if !(lat_active || enabled) then 0
     else if CS.out.rightBlindspot ∨ CS.out.vEgo < 8.94 then 2 else 6)
  let msg_161 := msg_161.insert "LCA_LEFT_ARROW" (if CC.leftBlinker then 2 else 0)
  let msg_161 := msg_161.insert "LCA_RIGHT_ARROW" (if CC.rightBlinker then 2 else 0)
  let msg_161 := msg_161.insert "LANE_LEFT" (if CC.leftBlinker then 1 else 0)
  let msg_161 := msg_161.insert "LANE_RIGHT" (if CC.rightBlinker then 1 else 0)
  let msg_162 := if hud.leftLaneDepart || hud.rightLaneDepart then
    msg_162.insert "VIBRATE" 1 else msg_162
  let msg_161 := if CP.openpilotLongitudinalControl then
      let s := pyRound (CS.out.vCruiseCluster * (if CS.is_metric then 1 else KPH_TO_MPH))
      let msg_161 := msg_161.insert "SETSPEED" (if enabled then 3 else 1)
      let msg_161 := msg_161.insert "SETSPEED_HUD" (if enabled then 2 else 1)
      let msg_161 := msg_161.insert "SETSPEED_SPEED" (if 100 < s then 25 else (s : ℚ))
      let msg_161 := msg_161.insert "DISTANCE" hud.leadDistanceBars
      let msg_161 := msg_161.insert "DISTANCE_SPACING" (if enabled then 1 else 0)
      let msg_161 := msg_161.insert "DISTANCE_LEAD"
        (if enabled && hud.leadVisible then 2 else if enabled then 1 else 0)
      let msg_161 := msg_161.insert "DISTANCE_CAR" (if enabled then 2 else 1)
      let msg_161 := msg_161.insert "SLA_ICON" 0
      let msg_161 := if msg_161.get "ALERTS_3" ∈
          [some 1, some 2, some 3, some 4, some 7, some 8, some 9, some (10 : ℚ)] then
        msg_161.insert "ALERTS_3" 0 else msg_161  -- HIDE ISLA, DISTANCE MESSAGES
      let msg_161 := if msg_161.get "NAV_ICON" = some 2 ∨ msg_161.get "NAV_ICON" = some 4 then
        msg_161.insert "NAV_ICON" 1 else msg_161  -- DISABLE NAV IF AVAILABLE
      msg_161
    else msg_161
  let msg_162 := if CP.openpilotLongitudinalControl then
    msg_162.insert "LEAD" 0 else msg_162
  [{ name := "CCNC_0x161", bus := CAN.ECAN, values := msg_161 },
   { name := "CCNC_0x162", bus := CAN.ECAN, values := msg_162 }]

/-! ### Claim theorems -/

/-- C4: for every harness configuration (any `lka_steering` value and any
non-negative offset), the bus-topology resolver yields ACAN ≠ ECAN; exactly
one of the two equals `0 + offset` and the other `1 + offset`, with the
assignment inverted when `lka_steering` is true; and `CAM = 2 + offset`. -/
theorem C4_bus_topology (lka_steering : Bool) (offset : Nat) :
    (CanBus.init lka_steering offset).ACAN ≠ (CanBus.init lka_steering offset).ECAN ∧
    (if lka_steering then
      (CanBus.init lka_steering offset).ACAN = 0 + offset ∧
      (CanBus.init lka_steering offset).ECAN = 1 + offset
     else
      (CanBus.init lka_steering offset).ACAN = 1 + offset ∧
      (CanBus.init lka_steering offset).ECAN = 0 + offset) ∧
    (CanBus.init lka_steering offset).CAM = 2 + offset := by
  cases lka_steering <;> simp [CanBus.init]

/-- C10: `create_buttons` emits its single CRUISE_BUTTONS frame on ECAN when
`lka_steering` is true and on the relay bus (`2 + offset`) otherwise, with
`SET_ME_1` always 1, for every counter and button value. -/
theorem C10_buttons_routing (lka_steering : Bool) (offset : Nat) (cnt btn : ℚ) :
    (create_buttons lka_steering (CanBus.init lka_steering offset) cnt btn).bus =
      (if lka_steering then (CanBus.init lka_steering offset).ECAN else 2 + offset) ∧
    (create_buttons lka_steering (CanBus.init lka_steering offset) cnt btn).values.get
      "SET_ME_1" = some 1 ∧
    (create_buttons lka_steering (CanBus.init lka_steering offset) cnt btn).values.get
      "COUNTER" = some cnt ∧
    (create_buttons lka_steering (CanBus.init lka_steering offset) cnt btn).values.get
      "CRUISE_BUTTONS" = some btn ∧
    (create_buttons lka_steering (CanBus.init lka_steering offset) cnt btn).name =
      "CRUISE_BUTTONS" := by
  cases lka_steering <;>
    simp [create_buttons, CanBus.init, Dict.get, Dict.insert, Dict.empty]

/-- C2 counterexample: the claim says the camera-based-cruise variant copies
strictly fewer fields than the standalone-radar variant; in the code it is
the camera variant that copies more (10 vs 5). -/
theorem C2_counterexample :
    ¬ camera_scc_cancel_fields.length < radar_scc_cancel_fields.length := by
  decide

/-- C2 amended: the cancel-command composer copies a fixed subset of fields
from the cruise-status snapshot, and the subset copied in the camera-based
variant is strictly longer (10 fields) than the standalone-radar subset
(5 fields); every copied field other than the overridden `ACCMode` reaches
the output unchanged. -/
theorem C2_cancel_field_subsets :
    camera_scc_cancel_fields.length = 10 ∧
    radar_scc_cancel_fields.length = 5 ∧
    radar_scc_cancel_fields.length < camera_scc_cancel_fields.length ∧
    (∀ (CAN : CanBus) (ci : String → ℚ) (s : String),
      s ∈ camera_scc_cancel_fields → s ≠ "ACCMode" →
      (create_acc_cancel true CAN ci).values.get s = some (ci s)) ∧
    (∀ (CAN : CanBus) (ci : String → ℚ) (s : String),
      s ∈ radar_scc_cancel_fields → s ≠ "ACCMode" →
      (create_acc_cancel false CAN ci).values.get s = some (ci s)) := by
  refine ⟨rfl, rfl, by decide, ?_, ?_⟩ <;>
    · intro CAN ci s hmem hne
      fin_cases hmem <;> first
        | rfl
        | exact absurd rfl hne

/-- C2 witness: the amended copy property at a concrete input. -/
theorem C2_cancel_field_subsets_witness :
    (create_acc_cancel true (CanBus.init false 0) (fun _ => 9)).values.get "COUNTER" =
      some 9 :=
  C2_cancel_field_subsets.2.2.2.1 (CanBus.init false 0) (fun _ => 9) "COUNTER"
    (by decide) (by decide)

/-- C5: whenever `enabled` is false or `gas_override` is true, both `aReqRaw`
and `aReqValue` of the produced SCC_CONTROL frame are zero, regardless of the
requested acceleration and the previous shaped value. -/
theorem C5_disabled_forces_zero (CAN : CanBus) (enabled : Bool)
    (accel_last accel : ℚ) (stopping gas_override : Bool) (set_speed : ℚ)
    (hud : HUDControl) (ci : Option (String → ℚ))
    (h : enabled = false ∨ gas_override = true) :
    (create_acc_control CAN enabled accel_last accel stopping gas_override
      set_speed hud ci).values.get "aReqRaw" = some 0 ∧
    (create_acc_control CAN enabled accel_last accel stopping gas_override
      set_speed hud ci).values.get "aReqValue" = some 0 := by
  cases ci <;> cases enabled <;> cases gas_override <;>
    simp_all [create_acc_control, Dict.get, Dict.insert]

/-- C5 witness: the zero-forcing at a concrete disabled input. -/
theorem C5_disabled_forces_zero_witness :
    (create_acc_control (CanBus.init false 0) false 0 2 false false 0
      ⟨true, true, false, false, false, 0⟩ none).values.get "aReqRaw" = some 0 ∧
    (create_acc_control (CanBus.init false 0) false 0 2 false false 0
      ⟨true, true, false, false, false, 0⟩ none).values.get "aReqValue" = some 0 :=
  C5_disabled_forces_zero (CanBus.init false 0) false 0 2 false false 0
    ⟨true, true, false, false, false, 0⟩ none (Or.inl rfl)

/-- C3: while enabled and not on gas override, the shaped output equals the
request clamped to `[previous − 1/10, previous + 1/10]` (with
`J/R = 5/50 = 1/10`), hence it differs from the previous cycle's shaped
value by at most `1/10` in absolute value. -/
theorem C3_rate_limited_shaper (CAN : CanBus) (accel_last accel : ℚ)
    (stopping : Bool) (set_speed : ℚ) (hud : HUDControl)
    (ci : Option (String → ℚ)) :
    (create_acc_control CAN true accel_last accel stopping false set_speed hud
      ci).values.get "aReqValue" =
      some (np_clip accel (accel_last - 1 / 10) (accel_last + 1 / 10)) ∧
    |np_clip accel (accel_last - 1 / 10) (accel_last + 1 / 10) - accel_last| ≤
      1 / 10 := by
  constructor
  · cases ci <;> simp [create_acc_control, Dict.get, Dict.insert] <;> norm_num
  · have h₁ : np_clip accel (accel_last - 1 / 10) (accel_last + 1 / 10) ≤
        accel_last + 1 / 10 := min_le_right _ _
    have h₂ : accel_last - 1 / 10 ≤
        np_clip accel (accel_last - 1 / 10) (accel_last + 1 / 10) :=
      le_min (le_max_right _ _) (by linarith)
    rw [abs_sub_le_iff]
    constructor <;> linarith

/-- C9 counterexample: the jerk-limit fields are claimed to be fixed
constants independent of the input state, but `JerkLowerLimit` is 5 when
enabled and 1 when disabled. -/
theorem C9_counterexample :
    (create_acc_control (CanBus.init false 0) true 0 0 false false 0
      ⟨true, true, false, false, false, 0⟩ none).values.get "JerkLowerLimit" =
      some 5 ∧
    (create_acc_control (CanBus.init false 0) false 0 0 false false 0
      ⟨true, true, false, false, false, 0⟩ none).values.get "JerkLowerLimit" =
      some 1 ∧
    (5 : ℚ) ≠ 1 := by
  refine ⟨rfl, rfl, by norm_num⟩

/-- C9 amended: `JerkUpperLimit` is the fixed constant 3 for every input;
`JerkLowerLimit` depends only on `enabled`: 5 when enabled, 1 otherwise. -/
theorem C9_jerk_limit_fields (CAN : CanBus) (enabled : Bool)
    (accel_last accel : ℚ) (stopping gas_override : Bool) (set_speed : ℚ)
    (hud : HUDControl) (ci : Option (String → ℚ)) :
    (create_acc_control CAN enabled accel_last accel stopping gas_override
      set_speed hud ci).values.get "JerkUpperLimit" = some 3 ∧
    (create_acc_control CAN enabled accel_last accel stopping gas_override
      set_speed hud ci).values.get "JerkLowerLimit" =
      some (if enabled then 5 else 1) := by
  cases ci <;> cases enabled <;>
    simp [create_acc_control, Dict.get, Dict.insert]

/-- C6: the suppressor output copies every `BYTE{i}` data field of the
variant's index range (`range(3, 32)` alt, `range(3, 24)` otherwise) other
than index 7 from the input snapshot, copies the rolling counter, zeros the
two reserved-constant fields and the left/right lane-line fields, and is
emitted on ACAN. -/
theorem C6_suppress_lfa (CAN : CanBus) (lfa_block_msg : String → ℚ)
    (lka_steering_alt : Bool) :
    (∀ i, i ∈ List.range' 3 ((if lka_steering_alt then 32 else 24) - 3) → i ≠ 7 →
      (create_suppress_lfa CAN lfa_block_msg lka_steering_alt).values.get (byteKey i) =
        some (lfa_block_msg (byteKey i))) ∧
    (create_suppress_lfa CAN lfa_block_msg lka_steering_alt).values.get "COUNTER" =
      some (lfa_block_msg "COUNTER") ∧
    (create_suppress_lfa CAN lfa_block_msg lka_steering_alt).values.get "SET_ME_0" =
      some 0 ∧
    (create_suppress_lfa CAN lfa_block_msg lka_steering_alt).values.get "SET_ME_0_2" =
      some 0 ∧
    (create_suppress_lfa CAN lfa_block_msg lka_steering_alt).values.get
      "LEFT_LANE_LINE" = some 0 ∧
    (create_suppress_lfa CAN lfa_block_msg lka_steering_alt).values.get
      "RIGHT_LANE_LINE" = some 0 ∧
    (create_suppress_lfa CAN lfa_block_msg lka_steering_alt).bus = CAN.ACAN := by
  refine ⟨?_, ?_, ?_, ?_, ?_, ?_, ?_⟩
  · intro i hmem hne
    cases lka_steering_alt <;>
      · fin_cases hmem <;> first
          | rfl
          | exact absurd rfl hne
  all_goals cases lka_steering_alt <;> rfl

/-- C6 witness: the copy property at a concrete snapshot and index. -/
theorem C6_suppress_lfa_witness :
    (create_suppress_lfa (CanBus.init false 0) (fun _ => 3) false).values.get
      (byteKey 5) = some 3 :=
  (C6_suppress_lfa (CanBus.init false 0) (fun _ => 3) false).1 5 (by decide) (by decide)

/-- C7: in the cluster overlay's page-A frame, each lane-line field follows
the priority order not-visible → 1, departing → 4, neither lateral-active
nor enabled → 0, blind-spot-occupied or speed below 8.94 → 2, otherwise 6;
in particular `leftLaneVisible = false` forces the left field to 1. -/
theorem C7_laneline_priority (CAN : CanBus) (CP : CarParams) (CC : CarControl)
    (CS : CarState) (lat_active : Bool) :
    ((create_ccnc CAN CP CC CS lat_active).head?.map
      (fun m => m.values.get "LANELINE_LEFT")) =
      some (some (if !CC.hudControl.leftLaneVisible then 1
        else if CC.hudControl.leftLaneDepart then 4
        else if !(lat_active || CC.enabled) then 0
        else if CS.out.leftBlindspot ∨ CS.out.vEgo < 8.94 then 2 else 6)) ∧
    ((create_ccnc CAN CP CC CS lat_active).head?.map
      (fun m => m.values.get "LANELINE_RIGHT")) =
      some (some (if !CC.hudControl.rightLaneVisible then 1
        else if CC.hudControl.rightLaneDepart then 4
        else if !(lat_active || CC.enabled) then 0
        else if CS.out.rightBlindspot ∨ CS.out.vEgo < 8.94 then 2 else 6)) ∧
    (CC.hudControl.leftLaneVisible = false →
      ((create_ccnc CAN CP CC CS lat_active).head?.map
        (fun m => m.values.get "LANELINE_LEFT")) = some (some 1)) := by
  have hL : ((create_ccnc CAN CP CC CS lat_active).head?.map
      (fun m => m.values.get "LANELINE_LEFT")) =
      some (some (if !CC.hudControl.leftLaneVisible then 1
        else if CC.hudControl.leftLaneDepart then 4
        else if !(lat_active || CC.enabled) then 0
        else if CS.out.leftBlindspot ∨ CS.out.vEgo < 8.94 then 2 else 6)) := by
    simp +decide [create_ccnc, Dict.get_insert, Dict.get_ite]
  have hR : ((create_ccnc CAN CP CC CS lat_active).head?.map
      (fun m => m.values.get "LANELINE_RIGHT")) =
      some (some (if !CC.hudControl.rightLaneVisible then 1
        else if CC.hudControl.rightLaneDepart then 4
        else if !(lat_active || CC.enabled) then 0
        else if CS.out.rightBlindspot ∨ CS.out.vEgo < 8.94 then 2 else 6)) := by
    simp +decide [create_ccnc, Dict.get_insert, Dict.get_ite]
  refine ⟨hL, hR, fun h => ?_⟩
  rw [hL, h]
  simp

/-- C7 witness: the not-visible → 1 implication at a concrete input. -/
theorem C7_laneline_priority_witness :
    ((create_ccnc (CanBus.init false 0) ⟨false⟩
        ⟨true, false, false, ⟨false, true, true, false, false, 0⟩⟩
        ⟨⟨20, false, false, 30⟩, true, Dict.empty, Dict.empty⟩ true).head?.map
      (fun m => m.values.get "LANELINE_LEFT")) = some (some 1) :=
  (C7_laneline_priority (CanBus.init false 0) ⟨false⟩
      ⟨true, false, false, ⟨false, true, true, false, false, 0⟩⟩
      ⟨⟨20, false, false, 30⟩, true, Dict.empty, Dict.empty⟩ true).2.2 rfl

/-- C1 counterexample: with longitudinal control owned, metric units and a
cluster cruise speed of 101, the converted value 101 exceeds 100 and the
page-A `SETSPEED_SPEED` field is written as 25, not as the claimed 100. -/
theorem C1_counterexample :
    ((create_ccnc (CanBus.init false 0) ⟨true⟩
        ⟨true, false, false, ⟨true, true, false, false, false, 0⟩⟩
        ⟨⟨0, false, false, 101⟩, true, Dict.empty, Dict.empty⟩ false).head?.map
      (fun m => m.values.get "SETSPEED_SPEED")) = some (some 25) ∧
    (some (some (25 : ℚ)) : Option (Option ℚ)) ≠ some (some 100) := by
  constructor
  · simp +decide [create_ccnc, Dict.get_insert, Dict.get_ite, Dict.get_empty]
    norm_num [pyRound]
  · norm_num

/-- C1 amended: when this stack owns longitudinal control, the page-A
`SETSPEED_SPEED` field carries the converted (rounded) cruise display speed
when that value is at most 100, and the fixed sentinel 25 (not a cap of
100) whenever the converted value exceeds 100. -/
theorem C1_setspeed_sentinel (CAN : CanBus) (CC : CarControl) (CS : CarState)
    (lat_active : Bool) :
    ((create_ccnc CAN ⟨true⟩ CC CS lat_active).head?.map
      (fun m => m.values.get "SETSPEED_SPEED")) =
      some (some (if 100 < pyRound (CS.out.vCruiseCluster *
          (if CS.is_metric then 1 else KPH_TO_MPH)) then 25
        else (pyRound (CS.out.vCruiseCluster *
          (if CS.is_metric then 1 else KPH_TO_MPH)) : ℚ))) := by
  simp +decide [create_ccnc, Dict.get_insert, Dict.get_ite]

/-- Names of the frames the cadence multiplexer emits at cycle `n`. -/
theorem adrv_msg_names (CAN : CanBus) (n : Nat) :
    (create_adrv_messages CAN n).map CanMsg.name =
      ["ADRV_0x51"] ++ (if n % 2 = 0 then ["ADRV_0x160"] else [])
      ++ (if n % 5 = 0 then ["ADRV_0x1ea", "ADRV_0x200"] else [])
      ++ (if n % 20 = 0 then ["ADRV_0x345"] else [])
      ++ (if n % 100 = 0 then ["ADRV_0x1da"] else []) := by
  simp only [create_adrv_messages, create_fca_warning_light]
  split_ifs <;> rfl

/-- C8: over cycles 0–99 the multiplexer emits the keep-alive frame 100
times, the fault-light frame 50 times, each 5-multiple frame 20 times, the
20-multiple frame 5 times and the 100-multiple frame once; the keep-alive
frame leads every cycle's batch and rides the camera bus (ACAN). -/
theorem C8_cadence_counts (CAN : CanBus) :
    (((List.range 100).map (fun n => (create_adrv_messages CAN n).map
      CanMsg.name)).flatten.count "ADRV_0x51" = 100) ∧
    (((List.range 100).map (fun n => (create_adrv_messages CAN n).map
      CanMsg.name)).flatten.count "ADRV_0x160" = 50) ∧
    (((List.range 100).map (fun n => (create_adrv_messages CAN n).map
      CanMsg.name)).flatten.count "ADRV_0x1ea" = 20) ∧
    (((List.range 100).map (fun n => (create_adrv_messages CAN n).map
      CanMsg.name)).flatten.count "ADRV_0x200" = 20) ∧
    (((List.range 100).map (fun n => (create_adrv_messages CAN n).map
      CanMsg.name)).flatten.count "ADRV_0x345" = 5) ∧
    (((List.range 100).map (fun n => (create_adrv_messages CAN n).map
      CanMsg.name)).flatten.count "ADRV_0x1da" = 1) ∧
    (∀ n, ((create_adrv_messages CAN n).map
      (fun m => (m.name, m.bus))).head? = some ("ADRV_0x51", CAN.ACAN)) := by
  refine ⟨?_, ?_, ?_, ?_, ?_, ?_, fun n => rfl⟩ <;>
    · simp only [adrv_msg_names]
      decide

end HyundaiCanFD
